import Mathlib

/-!
Verification of the disk utilities of chiapos (src/disk_util.hpp): device
resolution, rotational classification, the lock policy, and the
DirectoryLock guard. OS calls (stat, realpath, open/getline, open, flock,
close) are modelled by explicit oracles passed to each function, so every
embedded function is a pure, executable translation of the C++ source.
-/

/-- OS oracle for the read-only introspection calls used by the DiskUtil
namespace. Each field models one OS facility:
`stat` returns the major and minor device numbers of a path, or the OS
error text on failure; `realpath` canonicalizes a path, or fails with the
OS error text; `openRead` opens a file for reading and returns the first
line read by getline (possibly empty), or fails with the OS error text
when the open fails. -/
structure OS where
  stat : String → Except String (Nat × Nat)
  realpath : String → Except String String
  openRead : String → Except String String

namespace DiskUtil

/-- The pseudo-filesystem link "/sys/dev/block/<major>:<minor>" built by
DeviceNameOfDirectory before canonicalization. -/
def blockLinkPath (mjr mnr : Nat) : String :=
  "/sys/dev/block/" ++ toString mjr ++ ":" ++ toString mnr

/-- Embedding of DiskUtil::DeviceNameOfDirectory: stat the directory, build
"/sys/dev/block/<major>:<minor>", canonicalize it with realpath, and return
the resolved path. Each failure throws a runtime_error carrying the
strerror text, modelled as Except.error with the same message. -/
def DeviceNameOfDirectory (os : OS) (dir : String) : Except String String :=
  match os.stat dir with
  | Except.error e =>
      Except.error ("Unable to find device name for dir " ++ dir ++ ": " ++ e)
  | Except.ok (mjr, mnr) =>
      let block := blockLinkPath mjr mnr
      match os.realpath block with
      | Except.error e =>
          Except.error ("Unable to find device name for " ++ block ++ ": " ++ e)
      | Except.ok path => Except.ok path

/-- The attribute file "/sys/block/<dev>/queue/rotational" consulted by
IsParallelWritingPreferredForDevice. -/
def rotationalFilename (dev : String) : String :=
  "/sys/block/" ++ dev ++ "/queue/rotational"

/-- Embedding of DiskUtil::IsParallelWritingPreferredForDevice: open the
rotational attribute file (throwing with the strerror text when the open
fails), read the first line, set is_rotational to 0 exactly when the line
is nonempty and its first character is the digit zero, and return the
C negation of is_rotational. -/
def IsParallelWritingPreferredForDevice (os : OS) (dev : String) :
    Except String Bool :=
  let filename := rotationalFilename dev
  match os.openRead filename with
  | Except.error e =>
      Except.error ("Unable to open " ++ filename ++ " for reading: " ++ e)
  | Except.ok line =>
      let is_rotational : Nat :=
        if line.isEmpty = false ∧ line.front = '0' then 0 else 1
      Except.ok (decide (is_rotational = 0))

/-- Embedding of DiskUtil::ShouldLock. The compile-time platform gate
(defined(APPLE) or defined(WIN32) returns false) is modelled by the
platformSupported flag: false picks the unconditional-false branch, true
picks the Linux branch, which resolves the device name of the directory,
asks whether parallel writing is preferred for it, and returns the
negation. Exceptions from the two sub-calls propagate unchanged. -/
def ShouldLock (platformSupported : Bool) (os : OS) (dir : String) :
    Except String Bool :=
  if platformSupported = false then Except.ok false
  else
    match DeviceNameOfDirectory os dir with
    | Except.error e => Except.error e
    | Except.ok device_name =>
      match IsParallelWritingPreferredForDevice os device_name with
      | Except.error e => Except.error e
      | Except.ok is_parallel => Except.ok (!is_parallel)

end DiskUtil

/-- Outcome of one flock(LOCK_EX | LOCK_NB) call inside LockDirectory:
success, failure with errno EWOULDBLOCK (lock held elsewhere), or failure
with any other errno (carrying the strerror text). -/
inductive FlockResult where
  | success
  | wouldBlock
  | otherError (msg : String)
deriving DecidableEq

/-- OS oracle for one invocation of DirectoryLock::LockDirectory.
`openDir` models open(dirname, O_RDONLY | O_NOCTTY): it yields the file
descriptor, with -1 meaning the open failed. `flock` gives the outcome of
the n-th flock attempt of the retry loop within this invocation. -/
structure LockOS where
  openDir : String → Int
  flock : Nat → FlockResult

/-- OS oracle for one invocation of DirectoryLock::UnlockDirectory:
whether flock(fd, LOCK_UN) succeeds and whether close(fd) succeeds. -/
structure UnlockOS where
  flockUn : Bool
  closeOk : Bool

/-- The while loop of DirectoryLock::LockDirectory: repeat flock until it
succeeds, sleeping 60 seconds between attempts (the log line differs for
EWOULDBLOCK versus other errors, but both are retried). The loop has no
exit other than flock success, so it is modelled with explicit fuel:
`none` means the loop is still running (blocked) after `fuel` attempts,
`some dir_fd` means flock succeeded and the descriptor is returned. -/
def lockLoop (flock : Nat → FlockResult) (dir_fd : Int) :
    Nat → Nat → Option Int
  | 0, _ => none
  | Nat.succ fuel, n =>
    match flock n with
    | FlockResult.success => some dir_fd
    | _ => lockLoop flock dir_fd fuel (n + 1)

/-- Embedding of DirectoryLock::LockDirectory: open the directory; if the
open fails (descriptor -1), log the error and return -1 at once; otherwise
run the flock retry loop and return the open descriptor once flock
succeeds. `none` means the call has not returned within the given fuel. -/
def LockDirectory (os : LockOS) (dirname : String) (fuel : Nat) :
    Option Int :=
  let dir_fd := os.openDir dirname
  if dir_fd = -1 then some (-1)
  else lockLoop os.flock dir_fd fuel 0

/-- Embedding of DirectoryLock::UnlockDirectory: flock(fd, LOCK_UN) first,
returning false on failure; then close(fd), returning false on failure;
true when both succeed. -/
def UnlockDirectory (os : UnlockOS) (dir_fd : Int) (dirname : String) :
    Bool :=
  if os.flockUn = false then false
  else if os.closeOk = false then false
  else true

/-- The instance state of a DirectoryLock: the stored descriptor fd_
(-1 is the sentinel for the Unlocked state) and the stored directory
name. -/
structure DirectoryLock where
  fd_ : Int
  dirname_ : String
deriving DecidableEq

/-- Embedding of DirectoryLock::Lock: when fd_ is -1, assign the result of
LockDirectory to fd_; in every case return fd_ != -1. The result pairs
the updated instance with the returned Bool; `none` means LockDirectory
is still blocked in its retry loop. -/
def DirectoryLock.Lock (os : LockOS) (fuel : Nat) (d : DirectoryLock) :
    Option (DirectoryLock × Bool) :=
  if d.fd_ = -1 then
    match LockDirectory os d.dirname_ fuel with
    | none => none
    | some fd => some ({ d with fd_ := fd }, decide (fd ≠ -1))
  else some (d, decide (d.fd_ ≠ -1))

/-- Embedding of DirectoryLock::Unlock: return false when fd_ is already
-1; return false leaving fd_ unchanged when UnlockDirectory fails; reset
fd_ to -1 and return true when it succeeds. -/
def DirectoryLock.Unlock (os : UnlockOS) (d : DirectoryLock) :
    DirectoryLock × Bool :=
  if d.fd_ = -1 then (d, false)
  else if UnlockDirectory os d.fd_ d.dirname_ = false then (d, false)
  else ({ d with fd_ := -1 }, true)

/-- Instrumented state of one DirectoryLock instance: the instance itself
together with the list of OS descriptors currently held open (and locked)
on behalf of that instance. Acquisition appends the descriptor the moment
a completed Lock call records it; a fully successful UnlockDirectory
(flock LOCK_UN and close both succeed) removes it. -/
structure LockState where
  d : DirectoryLock
  owned : List Int
deriving DecidableEq

/-- One observable call on a DirectoryLock instance: a Lock() call (with
its OS oracle and fuel), an Unlock() call, or destruction, which runs
Unlock() and discards the Bool. -/
inductive LockEvent where
  | lockCall (os : LockOS) (fuel : Nat)
  | unlockCall (os : UnlockOS)
  | destroy (os : UnlockOS)

/-- Effect of a Lock() call on the instrumented state: run the embedded
Lock; a descriptor is acquired exactly when the instance went from the
-1 sentinel to a non-sentinel descriptor (the open succeeded and the
flock loop returned). `none` means the call is still blocked in the
retry loop. -/
def stepLock (os : LockOS) (fuel : Nat) (s : LockState) :
    Option LockState :=
  match DirectoryLock.Lock os fuel s.d with
  | none => none
  | some (d2, _) =>
      some { d := d2,
             owned := if s.d.fd_ = -1 ∧ d2.fd_ ≠ -1
                      then d2.fd_ :: s.owned else s.owned }

/-- Effect of an Unlock() call (or of destruction, which runs Unlock) on
the instrumented state: run the embedded Unlock; the held descriptor is
released exactly when the instance was locked and both the flock LOCK_UN
and the close succeeded. -/
def stepUnlock (os : UnlockOS) (s : LockState) : LockState :=
  let r := DirectoryLock.Unlock os s.d
  { d := r.1,
    owned := if s.d.fd_ ≠ -1 ∧ os.flockUn = true ∧ os.closeOk = true
             then s.owned.erase s.d.fd_ else s.owned }

/-- Small-step interpretation of one event on the instrumented state. -/
def stepEvent (s : LockState) : LockEvent → Option LockState
  | LockEvent.lockCall os fuel => stepLock os fuel s
  | LockEvent.unlockCall os => some (stepUnlock os s)
  | LockEvent.destroy os => some (stepUnlock os s)

/-- Run a list of events from a state; `none` when some Lock() call in
the sequence never returns from its retry loop. -/
def runEvents (s : LockState) : List LockEvent → Option LockState
  | [] => some s
  | e :: evs =>
    match stepEvent s e with
    | none => none
    | some s2 => runEvents s2 evs

/-- Embedding of the DirectoryLock constructor: store the directory name
with fd_ initialized to the -1 sentinel and no descriptor held; when the
lock argument (default true) is set, immediately perform the Lock()
call. -/
def constructLock (dirname : String) (os : LockOS) (fuel : Nat)
    (lock : Bool) : Option LockState :=
  let s0 : LockState := ⟨⟨-1, dirname⟩, []⟩
  if lock then stepEvent s0 (LockEvent.lockCall os fuel) else some s0

/-- The ownership invariant of a DirectoryLock instance: either Unlocked
(fd_ is the -1 sentinel and no OS descriptor is held) or Locked (fd_ is
not the sentinel and exactly the descriptor fd_ is held). -/
def LockInv (s : LockState) : Prop :=
  (s.d.fd_ = -1 ∧ s.owned = []) ∨ (s.d.fd_ ≠ -1 ∧ s.owned = [s.d.fd_])

/-- A concrete canonical device path, as realpath would return for
"/sys/dev/block/8:0" on a typical system: an absolute path ending in the
device name. -/
def sampleDevicePath : String := "/sys/devices/pci0000:00/1f.2/block/sda"

/-- A concrete introspection oracle: the directory "/plots" exists on
device 8:0, which canonicalizes to sampleDevicePath; the rotational
attribute file of that device path holds the line "0"; everything else
fails with an OS error text. -/
def sampleOS : OS where
  stat := fun p =>
    if p = "/plots" then Except.ok (8, 0)
    else Except.error "No such file or directory"
  realpath := fun p =>
    if p = DiskUtil.blockLinkPath 8 0 then Except.ok sampleDevicePath
    else Except.error "No such file or directory"
  openRead := fun p =>
    if p = DiskUtil.rotationalFilename sampleDevicePath then Except.ok "1"
    else Except.error "No such file or directory"

/-- A concrete introspection oracle whose stat succeeds on every path with
device 11:3 but whose realpath and openRead always fail. -/
def sampleOS2 : OS where
  stat := fun _ => Except.ok (11, 3)
  realpath := fun _ => Except.error "Permission denied"
  openRead := fun _ => Except.error "Permission denied"

/-- A concrete introspection oracle identical to sampleOS except that the
rotational attribute file of sampleDevicePath holds the line "0". -/
def sampleOS0 : OS where
  stat := fun p =>
    if p = "/plots" then Except.ok (8, 0)
    else Except.error "No such file or directory"
  realpath := fun p =>
    if p = DiskUtil.blockLinkPath 8 0 then Except.ok sampleDevicePath
    else Except.error "No such file or directory"
  openRead := fun p =>
    if p = DiskUtil.rotationalFilename sampleDevicePath then Except.ok "0"
    else Except.error "No such file or directory"

/-- A concrete lock oracle whose open always fails. -/
def osOpenFailSample : LockOS where
  openDir := fun _ => -1
  flock := fun _ => FlockResult.success

/-- A concrete lock oracle whose open returns descriptor 3 and whose flock
always fails with an errno other than EWOULDBLOCK. -/
def osNeverFlockSample : LockOS where
  openDir := fun _ => 3
  flock := fun _ => FlockResult.otherError "Permission denied"

/-- A concrete lock oracle whose open returns descriptor 3 and whose flock
succeeds at once. -/
def osLockOkSample : LockOS where
  openDir := fun _ => 3
  flock := fun _ => FlockResult.success

/-- Claim C4: for every device name whose rotational attribute file opens
successfully, IsParallelWritingPreferredForDevice returns the
parallel-writing-preferred answer (true) exactly when the first line is
nonempty and its first character is the digit zero; for every other first
line it returns the rotational answer (false). -/
theorem isParallel_first_line_classification (os : OS) (dev line : String)
    (h : os.openRead (DiskUtil.rotationalFilename dev) = Except.ok line) :
    DiskUtil.IsParallelWritingPreferredForDevice os dev =
      Except.ok (decide (line.isEmpty = false ∧ line.front = '0')) := by
  by_cases hc : line.isEmpty = false ∧ line.front = '0' <;>
    simp [DiskUtil.IsParallelWritingPreferredForDevice, h, hc]

/-- Witness for claim C4: on the concrete oracle whose attribute file
holds "0" the classifier answers true, and on the one whose file holds
"1" it answers false. -/
theorem isParallel_first_line_classification_witness :
    sampleOS0.openRead (DiskUtil.rotationalFilename sampleDevicePath) =
      Except.ok "0" ∧
    DiskUtil.IsParallelWritingPreferredForDevice sampleOS0
      sampleDevicePath = Except.ok true ∧
    DiskUtil.IsParallelWritingPreferredForDevice sampleOS
      sampleDevicePath = Except.ok false := by
  refine ⟨by rfl, ?_, ?_⟩
  · have h := isParallel_first_line_classification sampleOS0
      sampleDevicePath "0" (by rfl)
    simpa using h
  · have h := isParallel_first_line_classification sampleOS
      sampleDevicePath "1" (by rfl)
    simpa using h

/-- Claim C5: for every device name whose rotational attribute file cannot
be opened for reading, the classifier fails with an error carrying the OS
error text, and never returns a silent default answer. -/
theorem isParallel_open_failure (os : OS) (dev e : String)
    (h : os.openRead (DiskUtil.rotationalFilename dev) = Except.error e) :
    DiskUtil.IsParallelWritingPreferredForDevice os dev =
      Except.error ("Unable to open " ++ DiskUtil.rotationalFilename dev ++
        " for reading: " ++ e) := by
  simp [DiskUtil.IsParallelWritingPreferredForDevice, h]

/-- Witness for claim C5: on the concrete oracle, the file of device name
"sdb" does not open, and the classifier fails with the OS error text. -/
theorem isParallel_open_failure_witness :
    sampleOS.openRead (DiskUtil.rotationalFilename "sdb") =
      Except.error "No such file or directory" ∧
    DiskUtil.IsParallelWritingPreferredForDevice sampleOS "sdb" =
      Except.error ("Unable to open " ++ DiskUtil.rotationalFilename "sdb" ++
        " for reading: " ++ "No such file or directory") := by
  refine ⟨by rfl, ?_⟩
  exact isParallel_open_failure sampleOS "sdb" "No such file or directory"
    (by rfl)

/-- Claim C2: on the supported (Linux) platform, for every directory whose
device resolution succeeds, ShouldLock returns false when the first line
of the rotational attribute file of the backing device starts with the
character zero, and returns true for any other content of that file
(empty first line or any other leading character). -/
theorem shouldLock_rotational_classification (os : OS)
    (dir dev line : String)
    (hres : DiskUtil.DeviceNameOfDirectory os dir = Except.ok dev)
    (hline : os.openRead (DiskUtil.rotationalFilename dev) =
      Except.ok line) :
    (line.isEmpty = false ∧ line.front = '0' →
      DiskUtil.ShouldLock true os dir = Except.ok false) ∧
    (¬ (line.isEmpty = false ∧ line.front = '0') →
      DiskUtil.ShouldLock true os dir = Except.ok true) := by
  constructor <;> intro hc <;>
    simp [DiskUtil.ShouldLock, hres,
      DiskUtil.IsParallelWritingPreferredForDevice, hline, hc]

/-- Witness for claim C2: on the concrete oracles, the directory "/plots"
resolves, and ShouldLock answers false when the attribute file holds "0"
and true when it holds "1". -/
theorem shouldLock_rotational_classification_witness :
    DiskUtil.DeviceNameOfDirectory sampleOS0 "/plots" =
      Except.ok sampleDevicePath ∧
    DiskUtil.ShouldLock true sampleOS0 "/plots" = Except.ok false ∧
    DiskUtil.ShouldLock true sampleOS "/plots" = Except.ok true := by
  refine ⟨by rfl, ?_, ?_⟩
  · exact (shouldLock_rotational_classification sampleOS0 "/plots"
      sampleDevicePath "0" (by rfl) (by rfl)).1 (by decide)
  · exact (shouldLock_rotational_classification sampleOS "/plots"
      sampleDevicePath "1" (by rfl) (by rfl)).2 (by decide)

/-- Claim C3: on the supported platform, ShouldLock passes the entire
canonical path returned by DeviceNameOfDirectory as the device-name
argument of the classifier, so the attribute file consulted is
"/sys/block/" followed by that full canonical path followed by
"/queue/rotational", rather than a path built from a bare device name. -/
theorem shouldLock_passes_full_canonical_path (os : OS) (dir : String)
    (mjr mnr : Nat) (p : String)
    (hstat : os.stat dir = Except.ok (mjr, mnr))
    (hreal : os.realpath (DiskUtil.blockLinkPath mjr mnr) = Except.ok p) :
    DiskUtil.DeviceNameOfDirectory os dir = Except.ok p ∧
    DiskUtil.rotationalFilename p =
      "/sys/block/" ++ p ++ "/queue/rotational" ∧
    DiskUtil.ShouldLock true os dir =
      Except.map Bool.not (DiskUtil.IsParallelWritingPreferredForDevice os p) := by
  have hres : DiskUtil.DeviceNameOfDirectory os dir = Except.ok p := by
    simp [DiskUtil.DeviceNameOfDirectory, hstat, hreal]
  refine ⟨hres, rfl, ?_⟩
  cases h2 : DiskUtil.IsParallelWritingPreferredForDevice os p <;>
    simp [DiskUtil.ShouldLock, hres, h2, Except.map]

/-- Witness for claim C3: on the concrete oracle, the canonical device
path is the absolute sampleDevicePath, and the attribute file consulted
embeds that full path after "/sys/block/". -/
theorem shouldLock_passes_full_canonical_path_witness :
    DiskUtil.DeviceNameOfDirectory sampleOS "/plots" =
      Except.ok sampleDevicePath ∧
    DiskUtil.rotationalFilename sampleDevicePath =
      "/sys/block/" ++ sampleDevicePath ++ "/queue/rotational" ∧
    DiskUtil.ShouldLock true sampleOS "/plots" =
      Except.map Bool.not
        (DiskUtil.IsParallelWritingPreferredForDevice sampleOS
          sampleDevicePath) := by
  exact shouldLock_passes_full_canonical_path sampleOS "/plots" 8 0
    sampleDevicePath (by rfl) (by rfl)

/-- Claim C6: DeviceNameOfDirectory fails with an error carrying the OS
error text when stat fails; when stat succeeds and the
"/sys/dev/block/<major>:<minor>" entry canonicalizes to an absolute path,
it returns that path, a nonempty device identifier; and it fails with an
error carrying the OS error text when canonicalization fails. -/
theorem deviceNameOfDirectory_error_contract (os : OS) (dir : String) :
    (∀ e, os.stat dir = Except.error e →
      DiskUtil.DeviceNameOfDirectory os dir =
        Except.error ("Unable to find device name for dir " ++ dir ++
          ": " ++ e)) ∧
    (∀ mjr mnr p, os.stat dir = Except.ok (mjr, mnr) →
      os.realpath (DiskUtil.blockLinkPath mjr mnr) = Except.ok p →
      p.front = '/' →
      DiskUtil.DeviceNameOfDirectory os dir = Except.ok p ∧ p ≠ "") ∧
    (∀ mjr mnr e, os.stat dir = Except.ok (mjr, mnr) →
      os.realpath (DiskUtil.blockLinkPath mjr mnr) = Except.error e →
      DiskUtil.DeviceNameOfDirectory os dir =
        Except.error ("Unable to find device name for " ++
          DiskUtil.blockLinkPath mjr mnr ++ ": " ++ e)) := by
  refine ⟨?_, ?_, ?_⟩
  · intro e he
    simp [DiskUtil.DeviceNameOfDirectory, he]
  · intro mjr mnr p hstat hreal hp
    refine ⟨by simp [DiskUtil.DeviceNameOfDirectory, hstat, hreal], ?_⟩
    intro h0
    rw [h0] at hp
    exact absurd hp (by decide)
  · intro mjr mnr e hstat hreal
    simp [DiskUtil.DeviceNameOfDirectory, hstat, hreal]

/-- Witness for claim C6: on the concrete oracles, stat failure on
"/nope" yields the stat error message, "/plots" resolves to the nonempty
sampleDevicePath, and a realpath failure yields the canonicalization
error message. -/
theorem deviceNameOfDirectory_error_contract_witness :
    DiskUtil.DeviceNameOfDirectory sampleOS "/nope" =
      Except.error ("Unable to find device name for dir " ++ "/nope" ++
        ": " ++ "No such file or directory") ∧
    (DiskUtil.DeviceNameOfDirectory sampleOS "/plots" =
      Except.ok sampleDevicePath ∧ sampleDevicePath ≠ "") ∧
    DiskUtil.DeviceNameOfDirectory sampleOS2 "/plots" =
      Except.error ("Unable to find device name for " ++
        DiskUtil.blockLinkPath 11 3 ++ ": " ++ "Permission denied") := by
  refine ⟨?_, ?_, ?_⟩
  · exact (deviceNameOfDirectory_error_contract sampleOS "/nope").1
      "No such file or directory" (by rfl)
  · exact (deviceNameOfDirectory_error_contract sampleOS "/plots").2.1
      8 0 sampleDevicePath (by rfl) (by rfl) (by decide)
  · exact (deviceNameOfDirectory_error_contract sampleOS2 "/plots").2.2
      11 3 "Permission denied" (by rfl) (by rfl)

/-- Helper: the flock retry loop never returns while flock keeps
failing, whatever the errno. -/
theorem lockLoop_none_of_no_success (flock : Nat → FlockResult)
    (dir_fd : Int) (h : ∀ n, flock n ≠ FlockResult.success) :
    ∀ fuel n, lockLoop flock dir_fd fuel n = none := by
  intro fuel
  induction fuel with
  | zero => intro n; rfl
  | succ k ih =>
    intro n
    cases hf : flock n with
    | success => exact absurd hf (h n)
    | wouldBlock => simp [lockLoop, hf, ih (n + 1)]
    | otherError m => simp [lockLoop, hf, ih (n + 1)]

/-- Counterexample to claim C1: with an oracle whose open always fails,
Lock() on an Unlocked instance returns at once with the answer false and
the instance still Unlocked, instead of retrying forever. -/
theorem lock_open_failure_counterexample :
    DirectoryLock.Lock osOpenFailSample 3 ⟨-1, "/plots"⟩ =
      some (⟨-1, "/plots"⟩, false) := by rfl

/-- Claim C1 amended: if during lock() the open of the directory fails,
LockDirectory logs the error and returns -1 immediately, so lock()
returns false with the instance still Unlocked; it is flock failures
(would-block or any other errno) after a successful open that are
retried forever on the fixed 60-second interval, never returning within
any finite number of attempts while flock keeps failing. -/
theorem lock_open_failure_returns_false (os : LockOS) (fuel : Nat)
    (d : DirectoryLock) (hfd : d.fd_ = -1)
    (hopen : os.openDir d.dirname_ = -1) :
    DirectoryLock.Lock os fuel d = some (d, false) ∧
    (∀ os2 : LockOS, ∀ fuel2 : Nat, os2.openDir d.dirname_ ≠ -1 →
      (∀ n, os2.flock n ≠ FlockResult.success) →
      LockDirectory os2 d.dirname_ fuel2 = none) := by
  constructor
  · cases d with
    | mk fd dn =>
      simp only at hfd hopen
      subst hfd
      simp [DirectoryLock.Lock, LockDirectory, hopen]
  · intro os2 fuel2 hopen2 hflock
    simp [LockDirectory, hopen2, lockLoop_none_of_no_success os2.flock
      (os2.openDir d.dirname_) hflock fuel2 0]

/-- Witness for claim C1 amended: the concrete failing-open oracle makes
Lock() return false at once, and the concrete never-succeeding-flock
oracle keeps LockDirectory blocked after 7 attempts. -/
theorem lock_open_failure_returns_false_witness :
    DirectoryLock.Lock osOpenFailSample 3 ⟨-1, "/plots2"⟩ =
      some (⟨-1, "/plots2"⟩, false) ∧
    LockDirectory osNeverFlockSample "/plots2" 7 = none := by
  have h := lock_open_failure_returns_false osOpenFailSample 3
    ⟨-1, "/plots2"⟩ (by rfl) (by rfl)
  exact ⟨h.1, h.2 osNeverFlockSample 7 (by decide)
    (fun n => by simp [osNeverFlockSample])⟩

/-- Claim C7: for every DirectoryLock instance already Locked, Lock()
returns true with the instance unchanged (no new acquisition), and a
second Lock() in a row again returns true with the instance unchanged. -/
theorem lock_idempotent_on_locked (os : LockOS) (fuel : Nat)
    (d : DirectoryLock) (h : d.fd_ ≠ -1) :
    DirectoryLock.Lock os fuel d = some (d, true) ∧
    Option.bind (DirectoryLock.Lock os fuel d)
      (fun p => DirectoryLock.Lock os fuel p.1) = some (d, true) := by
  have h1 : DirectoryLock.Lock os fuel d = some (d, true) := by
    simp [DirectoryLock.Lock, h]
  exact ⟨h1, by rw [h1]; simpa using h1⟩

/-- Witness for claim C7: a concrete Locked instance with descriptor 3
answers true to Lock() twice in a row and keeps its descriptor. -/
theorem lock_idempotent_on_locked_witness :
    DirectoryLock.Lock osNeverFlockSample 1 ⟨3, "/plots"⟩ =
      some (⟨3, "/plots"⟩, true) ∧
    Option.bind (DirectoryLock.Lock osNeverFlockSample 1 ⟨3, "/plots"⟩)
      (fun p => DirectoryLock.Lock osNeverFlockSample 1 p.1) =
      some (⟨3, "/plots"⟩, true) := by
  exact lock_idempotent_on_locked osNeverFlockSample 1 ⟨3, "/plots"⟩
    (by decide)

/-- Claim C8: for every DirectoryLock instance in the Unlocked state,
unlock() is a no-op returning false that leaves the state Unlocked; and
after any successful unlock() (returning true), an immediately following
unlock() returns false. -/
theorem unlock_noop_when_unlocked (os os2 : UnlockOS)
    (d : DirectoryLock) :
    (d.fd_ = -1 → DirectoryLock.Unlock os d = (d, false)) ∧
    (∀ d2, DirectoryLock.Unlock os d = (d2, true) →
      DirectoryLock.Unlock os2 d2 = (d2, false)) := by
  constructor
  · intro h
    simp [DirectoryLock.Unlock, h]
  · intro d2 h
    have h2 : d2.fd_ = -1 := by
      unfold DirectoryLock.Unlock at h
      split at h
      · simp at h
      · split at h
        · simp at h
        · have := congrArg (fun p => (Prod.fst p).fd_) h
          simpa using this.symm
    simp [DirectoryLock.Unlock, h2]

/-- Witness for claim C8: the concrete Unlocked instance answers false,
and after a successful unlock of a Locked instance the next unlock
answers false. -/
theorem unlock_noop_when_unlocked_witness :
    DirectoryLock.Unlock ⟨true, true⟩ ⟨-1, "/plots"⟩ =
      (⟨-1, "/plots"⟩, false) ∧
    DirectoryLock.Unlock ⟨true, true⟩ ⟨3, "/plots"⟩ =
      (⟨-1, "/plots"⟩, true) ∧
    DirectoryLock.Unlock ⟨false, false⟩ ⟨-1, "/plots"⟩ =
      (⟨-1, "/plots"⟩, false) := by
  refine ⟨(unlock_noop_when_unlocked ⟨true, true⟩ ⟨false, false⟩
    ⟨-1, "/plots"⟩).1 (by rfl), by rfl, ?_⟩
  exact (unlock_noop_when_unlocked ⟨true, true⟩ ⟨false, false⟩
    ⟨3, "/plots"⟩).2 ⟨-1, "/plots"⟩ (by rfl)

/-- Claim C9: for every Locked DirectoryLock instance, unlock() returns
false with the instance unchanged (same held descriptor, still Locked)
when the OS unlock call or the OS close call fails, and returns true
transitioning to Unlocked exactly when both succeed. -/
theorem unlock_failure_keeps_state (os : UnlockOS) (d : DirectoryLock)
    (h : d.fd_ ≠ -1) :
    ((os.flockUn = false ∨ os.closeOk = false) →
      DirectoryLock.Unlock os d = (d, false)) ∧
    (os.flockUn = true → os.closeOk = true →
      DirectoryLock.Unlock os d = ({ d with fd_ := -1 }, true)) := by
  constructor
  · rintro (hf | hc)
    · simp [DirectoryLock.Unlock, UnlockDirectory, h, hf]
    · simp [DirectoryLock.Unlock, UnlockDirectory, h, hc]
  · intro hf hc
    simp [DirectoryLock.Unlock, UnlockDirectory, h, hf, hc]

/-- Witness for claim C9: on a concrete Locked instance with descriptor
3, unlock() under a failing flock answers false keeping the state, under
a failing close answers false keeping the state, and under full success
answers true with the descriptor reset to the sentinel. -/
theorem unlock_failure_keeps_state_witness :
    DirectoryLock.Unlock ⟨false, true⟩ ⟨3, "/plots"⟩ =
      (⟨3, "/plots"⟩, false) ∧
    DirectoryLock.Unlock ⟨true, false⟩ ⟨3, "/plots"⟩ =
      (⟨3, "/plots"⟩, false) ∧
    DirectoryLock.Unlock ⟨true, true⟩ ⟨3, "/plots"⟩ =
      (⟨-1, "/plots"⟩, true) := by
  refine ⟨?_, ?_, ?_⟩
  · exact (unlock_failure_keeps_state ⟨false, true⟩ ⟨3, "/plots"⟩
      (by decide)).1 (Or.inl rfl)
  · exact (unlock_failure_keeps_state ⟨true, false⟩ ⟨3, "/plots"⟩
      (by decide)).1 (Or.inr rfl)
  · exact (unlock_failure_keeps_state ⟨true, true⟩ ⟨3, "/plots"⟩
      (by decide)).2 rfl rfl

/-- Helper: a Lock() call preserves the ownership invariant. -/
theorem lockInv_stepLock (os : LockOS) (fuel : Nat) (s s2 : LockState)
    (hinv : LockInv s) (h : stepLock os fuel s = some s2) : LockInv s2 := by
  unfold stepLock at h
  unfold DirectoryLock.Lock at h
  by_cases hfd : s.d.fd_ = -1
  · rcases hinv with ⟨_, hown⟩ | ⟨hne, _⟩
    · rw [if_pos hfd] at h
      cases hL : LockDirectory os s.d.dirname_ fuel with
      | none => rw [hL] at h; simp at h
      | some fd =>
        rw [hL] at h
        simp only [Option.some.injEq] at h
        subst h
        by_cases hf : fd = -1
        · left
          constructor
          · simpa using hf
          · simp [hfd, hf, hown]
        · right
          constructor
          · simpa using hf
          · simp [hfd, hf, hown]
    · exact absurd hfd hne
  · rw [if_neg hfd] at h
    simp only [Option.some.injEq] at h
    subst h
    simpa [hfd] using hinv

/-- Helper: an Unlock() call (also run by the destructor) preserves the
ownership invariant. -/
theorem lockInv_stepUnlock (os : UnlockOS) (s : LockState)
    (hinv : LockInv s) : LockInv (stepUnlock os s) := by
  unfold stepUnlock DirectoryLock.Unlock UnlockDirectory
  by_cases hfd : s.d.fd_ = -1
  · simpa [hfd] using hinv
  · rcases hinv with ⟨heq, _⟩ | ⟨_, hown⟩
    · exact absurd heq hfd
    · by_cases hf : os.flockUn = false
      · right
        simp [hfd, hf, hown]
      · by_cases hc : os.closeOk = false
        · right
          simp [hfd, hf, hc, hown]
        · left
          simp only [Bool.not_eq_false] at hf hc
          simp [hfd, hf, hc, hown]

/-- Helper: every event preserves the ownership invariant. -/
theorem lockInv_stepEvent (s s2 : LockState) (e : LockEvent)
    (hinv : LockInv s) (h : stepEvent s e = some s2) : LockInv s2 := by
  cases e with
  | lockCall os fuel => exact lockInv_stepLock os fuel s s2 hinv h
  | unlockCall os =>
    simp only [stepEvent, Option.some.injEq] at h
    subst h
    exact lockInv_stepUnlock os s hinv
  | destroy os =>
    simp only [stepEvent, Option.some.injEq] at h
    subst h
    exact lockInv_stepUnlock os s hinv

/-- Helper: running any event list preserves the ownership invariant. -/
theorem lockInv_runEvents (evs : List LockEvent) :
    ∀ s s2 : LockState, LockInv s → runEvents s evs = some s2 →
      LockInv s2 := by
  induction evs with
  | nil =>
    intro s s2 hinv h
    simp only [runEvents, Option.some.injEq] at h
    subst h
    exact hinv
  | cons e evs ih =>
    intro s s2 hinv h
    unfold runEvents at h
    cases he : stepEvent s e with
    | none => rw [he] at h; simp at h
    | some s1 =>
      rw [he] at h
      exact ih s1 s2 (lockInv_stepEvent s s1 e hinv he) h

/-- Claim C10: every reachable state of a DirectoryLock instance is
either Unlocked (fd_ is the -1 sentinel and no OS descriptor held) or
Locked (exactly the descriptor fd_ held); construction with or without
auto-lock, every Lock() and Unlock() call, and destruction preserve this,
acquisition being the only transition to Locked and full release the
only transition to Unlocked. -/
theorem directoryLock_ownership_invariant (dirname : String)
    (autoLock : Bool) (os0 : LockOS) (fuel0 : Nat)
    (evs : List LockEvent) (s0 s : LockState)
    (hc : constructLock dirname os0 fuel0 autoLock = some s0)
    (hrun : runEvents s0 evs = some s) : LockInv s := by
  have hinit : LockInv (⟨⟨-1, dirname⟩, []⟩ : LockState) := by
    left
    exact ⟨rfl, rfl⟩
  have h0 : LockInv s0 := by
    unfold constructLock at hc
    by_cases hl : autoLock
    · rw [if_pos hl] at hc
      exact lockInv_stepEvent _ s0 _ hinit hc
    · rw [if_neg hl] at hc
      simp only [Option.some.injEq] at hc
      subst hc
      exact hinit
  exact lockInv_runEvents evs s0 s h0 hrun

/-- Witness for claim C10: a concrete auto-locking construction on the
always-succeeding oracle, followed by a failed unlock, a successful
unlock, a fresh lock and destruction, always lands in a state satisfying
the ownership invariant. -/
theorem directoryLock_ownership_invariant_witness :
    constructLock "/plots" osLockOkSample 1 true =
      some ⟨⟨3, "/plots"⟩, [3]⟩ ∧
    runEvents ⟨⟨3, "/plots"⟩, [3]⟩
      [LockEvent.unlockCall ⟨false, true⟩, LockEvent.unlockCall ⟨true, true⟩,
       LockEvent.lockCall osLockOkSample 1, LockEvent.destroy ⟨true, true⟩] =
      some ⟨⟨-1, "/plots"⟩, []⟩ ∧
    LockInv ⟨⟨-1, "/plots"⟩, []⟩ := by
  refine ⟨by rfl, by rfl, ?_⟩
  exact directoryLock_ownership_invariant "/plots" true osLockOkSample 1
    [LockEvent.unlockCall ⟨false, true⟩, LockEvent.unlockCall ⟨true, true⟩,
     LockEvent.lockCall osLockOkSample 1, LockEvent.destroy ⟨true, true⟩]
    ⟨⟨3, "/plots"⟩, [3]⟩ ⟨⟨-1, "/plots"⟩, []⟩ (by rfl) (by rfl)
